import Mathlib

/- Formal model of the GOYOJO GW192A thermal-camera viewer scripts
   (src/GW192a_test.py and src/GW192a_test_Windows.py): the settings
   store (load, merge with defaults, atomic save), the post-load
   normalization, the keyboard dispatch of the main loop, the per-frame
   overlay dataflow, the pointer-readout mapping, and the recording
   lifecycle. Machine integers of the scripts are modelled as Int or
   Nat; Python floor/truncating behaviour is made explicit. -/

/-- A parsed JSON value, as produced by Python's json.load. Floats carry
their int() truncation; arrays and objects carry no payload because the
settings code never looks inside them. -/
inductive JValue where
  | jnull
  | jbool (b : Bool)
  | jint (n : Int)
  | jfloat (trunc : Int)
  | jstr (s : String)
  | jarr
  | jobj
deriving DecidableEq, Repr

/-- A Python dict with string keys and JSON values, in insertion order
(as json.load and json.dump preserve it). -/
abbrev Settings : Type := List (String × JValue)

/-- Lookup of `d[k]` / `k in d` semantics: first matching key. -/
def dictGet : Settings → String → Option JValue
  | [], _ => none
  | (k', v') :: rest, k => if k' = k then some v' else dictGet rest k

/-- `d[k] = v` on a Python dict: replace in place when the key exists
(preserving insertion order), append otherwise. -/
def dictSet : Settings → String → JValue → Settings
  | [], k, v => [(k, v)]
  | (k', v') :: rest, k, v =>
    if k' = k then (k, v) :: rest else (k', v') :: dictSet rest k v

/-- Python `isinstance(x, type(v))`. `bool` is a subclass of `int`, so a
JSON boolean passes the check against an int-typed default; no other
cross-constructor case is an instance relation among the types that can
occur in a settings file. -/
def pyIsinstance : JValue → JValue → Bool
  | JValue.jint _, JValue.jint _ => true
  | JValue.jbool _, JValue.jint _ => true
  | JValue.jbool _, JValue.jbool _ => true
  | JValue.jstr _, JValue.jstr _ => true
  | JValue.jfloat _, JValue.jfloat _ => true
  | JValue.jnull, JValue.jnull => true
  | JValue.jarr, JValue.jarr => true
  | JValue.jobj, JValue.jobj => true
  | _, _ => false

/-- Python `int(x)`: identity on ints, True/False become 1/0, floats
truncate toward zero, digit strings parse; anything else raises (none). -/
def pyInt : JValue → Option Int
  | JValue.jint n => some n
  | JValue.jbool b => some (if b then 1 else 0)
  | JValue.jfloat t => some t
  | JValue.jstr s => s.toInt?
  | _ => none

/-- `default_settings` of GW192a_test.py (comment strings abbreviated;
only their presence and str type matter to the merge loop). -/
def default_settings : Settings :=
  [("_comment_1", JValue.jstr "c1"),
   ("_comment_2", JValue.jstr "c2"),
   ("_comment_WINDOWS_SYSTEM", JValue.jstr "cw"),
   ("_comment_3", JValue.jstr "c3"),
   ("_comment_LINUX_SYSTEM", JValue.jstr "cl"),
   ("_comment_4", JValue.jstr "c4"),
   ("_comment_5", JValue.jstr "c5"),
   ("gw192a_camera_index", JValue.jint 1),
   ("rotation_index", JValue.jint 1),
   ("map_index", JValue.jint 0),
   ("interpolation_index", JValue.jint 0),
   ("scale_percent", JValue.jint 650)]

/-- `default_settings` of GW192a_test_Windows.py. -/
def win_default_settings : Settings :=
  [("rotation_index", JValue.jint 1),
   ("map_index", JValue.jint 0),
   ("interpolation_index", JValue.jint 0),
   ("scale_percent", JValue.jint 600)]

/-- The merge loop of GW192a_test.py load_settings: for each default
key, replace the on-disk entry when it is absent or of the wrong type
(isinstance check against the default's type); the Bool is the
`changed` flag. -/
def mergeList : List (String × JValue) → Settings → Bool → Settings × Bool
  | [], data, ch => (data, ch)
  | (k, v) :: rest, data, ch =>
    match dictGet data k with
    | some x =>
      if pyIsinstance x v then mergeList rest data ch
      else mergeList rest (dictSet data k v) true
    | none => mergeList rest (dictSet data k v) true

/-- The merge loop of GW192a_test_Windows.py load_settings: fills in
absent keys only, with no type check at all. -/
def winMergeList : List (String × JValue) → Settings → Bool → Settings × Bool
  | [], data, ch => (data, ch)
  | (k, v) :: rest, data, ch =>
    match dictGet data k with
    | some _ => winMergeList rest data ch
    | none => winMergeList rest (dictSet data k v) true

/-- State of the settings file as seen by load_settings: absent,
present but failing json.load, or parsed to a dict. -/
inductive DiskState where
  | absent
  | unparseable
  | parsed (data : Settings)
deriving DecidableEq, Repr

/-- load_settings of GW192a_test.py. Returns the dict handed to the
caller and, when the function writes the settings file (fresh defaults,
corrupt-file reset, or a merge that changed something), the content it
writes; `none` means no write is attempted this load. -/
def load_settings : DiskState → Settings × Option Settings
  | DiskState.absent => (default_settings, some default_settings)
  | DiskState.unparseable => (default_settings, some default_settings)
  | DiskState.parsed data =>
    let m := mergeList default_settings data false
    (m.1, if m.2 then some m.1 else none)

/-- load_settings of GW192a_test_Windows.py (presence-only merge). -/
def win_load_settings : DiskState → Settings × Option Settings
  | DiskState.absent => (win_default_settings, some win_default_settings)
  | DiskState.unparseable => (win_default_settings, some win_default_settings)
  | DiskState.parsed data =>
    let m := winMergeList win_default_settings data false
    (m.1, if m.2 then some m.1 else none)

/-- Python `settings.get(k, dflt)`. -/
def pyGet (s : Settings) (k : String) (dflt : JValue) : JValue :=
  (dictGet s k).getD dflt

/-- The four runtime parameters both scripts read back after load. -/
structure Config where
  rotation_index : Int
  map_index : Int
  interpolation_index : Int
  scale_percent : Int
deriving DecidableEq, Repr

/-- The module-level extraction both scripts share:
`int(settings.get("rotation_index", 1))` and so on (the .get defaults
are 1, 0, 0, 600 in both files). `none` models an int() TypeError. -/
def configFromSettings (s : Settings) : Option Config :=
  match pyInt (pyGet s "rotation_index" (JValue.jint 1)),
        pyInt (pyGet s "map_index" (JValue.jint 0)),
        pyInt (pyGet s "interpolation_index" (JValue.jint 0)),
        pyInt (pyGet s "scale_percent" (JValue.jint 600)) with
  | some r, some m, some i, some sc => some ⟨r, m, i, sc⟩
  | _, _, _, _ => none

/-- rotation_modes of both scripts (None plus three cv2 rotate codes). -/
def rotation_modes : List (Option String) :=
  [none, some "ROTATE_90_CLOCKWISE", some "ROTATE_180",
   some "ROTATE_90_COUNTERCLOCKWISE"]

/-- color_maps of both scripts, as the cv2 colormap constant names. -/
def color_maps : List String :=
  ["INFERNO", "AUTUMN", "BONE", "CIVIDIS", "COOL", "DEEPGREEN", "HOT",
   "HSV", "JET", "MAGMA", "OCEAN", "PARULA", "PINK", "PLASMA",
   "RAINBOW", "SPRING", "SUMMER", "TURBO", "TWILIGHT",
   "TWILIGHT_SHIFTED", "VIRIDIS", "WINTER"]

/-- interpolation_type of both scripts, as the cv2 constant names. -/
def interpolation_type : List String :=
  ["INTER_LINEAR_EXACT", "INTER_NEAREST", "INTER_AREA", "INTER_BITS",
   "INTER_BITS2", "INTER_CUBIC", "INTER_LANCZOS4", "INTER_LINEAR"]

def min_scale : Int := 150

def max_scale : Int := 1000

def zoom_step : Int := 50

/-- The defensive-bounds block of GW192a_test.py (lines 180-183):
each index is reduced with Python's `%` (nonnegative remainder,
Int.emod) by its list's length, and scale_percent is clamped with
`max(min(sc, max_scale), min_scale)`. -/
def normalizeConfig (c : Config) : Config :=
  { rotation_index := Int.emod c.rotation_index (rotation_modes.length : Int)
    map_index := Int.emod c.map_index (color_maps.length : Int)
    interpolation_index :=
      Int.emod c.interpolation_index (interpolation_type.length : Int)
    scale_percent := max (min c.scale_percent max_scale) min_scale }

/-- Everything GW192a_test.py does to obtain its runtime parameters:
load_settings, the int() extraction, then the defensive bounds. -/
def mainPostLoad (d : DiskState) : Option Config :=
  (configFromSettings (load_settings d).1).map normalizeConfig

/-- Everything GW192a_test_Windows.py does to obtain its runtime
parameters: win_load_settings then the int() extraction. There is no
normalization or clamping step in that script. -/
def winPostLoad (d : DiskState) : Option Config :=
  configFromSettings (win_load_settings d).1

/- ---------------------------------------------------------------
   Atomic persistence (atomic_save_json of both scripts).
   --------------------------------------------------------------- -/

/-- Content of one file: a fully written JSON document, or a
half-written one (as a temp file is between creation and fsync, or
after an interrupted write). -/
inductive FileData where
  | complete (s : Settings)
  | truncated
deriving DecidableEq, Repr

/-- The two paths atomic_save_json touches: the canonical settings file
and its temp file in the same directory. `none` means the path does
not exist. -/
structure FS where
  canonical : Option FileData
  temp : Option FileData
deriving DecidableEq, Repr

/-- Where, if anywhere, the save sequence
mkstemp, write, flush+fsync, os.replace raises. -/
inductive SaveOutcome where
  | ok
  | failMkstemp
  | failWrite
  | failFsync
  | failReplace
deriving DecidableEq, Repr

/-- atomic_save_json of both scripts. On success the temp file is
written completely, fsynced, and atomically renamed over the canonical
path. On any failure the except block removes the temp file when that
removal itself succeeds (`cleanupOk`), and False is returned; the
canonical path is only ever touched by the atomic os.replace. -/
def atomic_save_json (fs : FS) (data : Settings) (out : SaveOutcome)
    (cleanupOk : Bool) : FS × Bool :=
  match out with
  | SaveOutcome.ok =>
    ({ canonical := some (FileData.complete data), temp := none }, true)
  | SaveOutcome.failMkstemp =>
    ({ canonical := fs.canonical, temp := fs.temp }, false)
  | SaveOutcome.failWrite =>
    ({ canonical := fs.canonical,
       temp := if cleanupOk then none else some FileData.truncated }, false)
  | SaveOutcome.failFsync =>
    ({ canonical := fs.canonical,
       temp := if cleanupOk then none else some FileData.truncated }, false)
  | SaveOutcome.failReplace =>
    ({ canonical := fs.canonical,
       temp := if cleanupOk then none else some (FileData.complete data) },
     false)

/-- A save whose process is killed after `steps` of the sequence
[mkstemp, write+flush+fsync, os.replace] have completed: no except
block runs, so a temp file may linger, but the canonical path changes
only at the final, atomic step. -/
def atomic_save_interrupted (fs : FS) (data : Settings) (steps : Nat) : FS :=
  if steps = 0 then fs
  else if steps = 1 then { canonical := fs.canonical,
                           temp := some FileData.truncated }
  else if steps = 2 then { canonical := fs.canonical,
                           temp := some (FileData.complete data) }
  else { canonical := some (FileData.complete data), temp := none }

/-- Whether the canonical settings file would json.load without error
on the next load_settings (a missing file takes the defaults path,
which also parses nothing). -/
def canonicalParses : Option FileData → Bool
  | none => true
  | some (FileData.complete _) => true
  | some FileData.truncated => false

/-- update_and_save of both scripts: set the key, then delegate the
whole dict to atomic_save_json, returning its success flag. -/
def update_and_save (settings : Settings) (k : String) (v : JValue)
    (fs : FS) (out : SaveOutcome) (cleanupOk : Bool) :
    Settings × FS × Bool :=
  let s' := dictSet settings k v
  let r := atomic_save_json fs s' out cleanupOk
  (s', r.1, r.2)

/- ---------------------------------------------------------------
   The keyboard dispatch of GW192a_test.py (main-loop lines 369-436).
   --------------------------------------------------------------- -/

/-- The transient messages show_message can be called with from the
dispatch, abstracting the formatted strings. -/
inductive Msg where
  | rotate (deg : Int)
  | palette (pos total : Int)
  | interp (pos total : Int)
  | scale (pct : Int)
  | snapSaved
  | snapFailed
  | recStarted
  | recStartFailed
  | recStopped
  | recStopFailed
deriving DecidableEq, Repr

/-- The process-wide mutable state the key handlers of GW192a_test.py
read and write: the four configuration variables, the UI toggles, the
recording state, the last transient message, the in-memory settings
dict, the canonical settings file (`disk`), a count of snapshot files
written, a count of log_error/log_exception calls, and the quit flag. -/
structure AppState where
  rotation_index : Int
  map_index : Int
  interpolation_index : Int
  scale_percent : Int
  show_text : Bool
  show_gradient : Bool
  is_recording : Bool
  has_writer : Bool
  rec_blink_state : Bool
  last_message : Option Msg
  settingsDict : Settings
  disk : Option Settings
  snapshots : Nat
  logged : Nat
  quit : Bool
deriving DecidableEq, Repr

/-- update_and_save as the key handlers use it: mutate the shared dict,
attempt the atomic save (success `saveOk`), and log a warning when the
save fails. The canonical file changes only on a successful save. -/
def dispatchSave (st : AppState) (k : String) (v : JValue)
    (saveOk : Bool) : AppState :=
  let d := dictSet st.settingsDict k v
  { st with settingsDict := d,
            disk := if saveOk then some d else st.disk,
            logged := if saveOk then st.logged else st.logged + 1 }

/-- One pass through the elif chain of GW192a_test.py lines 369-436,
for the polled key code (waitKey and 0xFF). `saveOk` is whether this
tick's atomic save would succeed, `sinkOpens` whether a newly created
VideoWriter isOpened, `snapshotOk` whether imwrite succeeds, `closeOk`
whether VideoWriter.release succeeds. Zoom keys are gated on
`not is_recording` exactly as in the source. -/
def dispatchKey (key : Nat) (saveOk sinkOpens snapshotOk closeOk : Bool)
    (st : AppState) : AppState :=
  if key = 113 then
    { st with quit := true }
  else if key = 104 ∨ key = 72 then
    { st with show_text := !st.show_text }
  else if key = 114 ∨ key = 82 then
    let r := Int.emod (st.rotation_index + 1) 4
    let st1 := dispatchSave { st with rotation_index := r }
      "rotation_index" (JValue.jint r) saveOk
    { st1 with last_message := some (Msg.rotate (r * 90)) }
  else if key = 112 ∨ key = 80 then
    let m := Int.emod (st.map_index + 1) (color_maps.length : Int)
    let st1 := dispatchSave { st with map_index := m }
      "map_index" (JValue.jint m) saveOk
    let msg := Msg.palette (m + 1) (color_maps.length : Int)
    { st1 with last_message := some msg }
  else if key = 105 ∨ key = 73 then
    let i := Int.emod (st.interpolation_index + 1)
      (interpolation_type.length : Int)
    let st1 := dispatchSave { st with interpolation_index := i }
      "interpolation_index" (JValue.jint i) saveOk
    let msg := Msg.interp (i + 1) (interpolation_type.length : Int)
    { st1 with last_message := some msg }
  else if (key = 43 ∨ key = 61) ∧ st.is_recording = false then
    let s := min (st.scale_percent + zoom_step) max_scale
    let st1 := dispatchSave { st with scale_percent := s }
      "scale_percent" (JValue.jint s) saveOk
    { st1 with last_message := some (Msg.scale s) }
  else if (key = 45 ∨ key = 95) ∧ st.is_recording = false then
    let s := max (st.scale_percent - zoom_step) min_scale
    let st1 := dispatchSave { st with scale_percent := s }
      "scale_percent" (JValue.jint s) saveOk
    { st1 with last_message := some (Msg.scale s) }
  else if key = 115 ∨ key = 83 then
    if snapshotOk then
      { st with snapshots := st.snapshots + 1,
                last_message := some Msg.snapSaved }
    else
      { st with logged := st.logged + 1,
                last_message := some Msg.snapFailed }
  else if key = 118 ∨ key = 86 then
    if st.is_recording = false then
      if sinkOpens then
        { st with is_recording := true, has_writer := true,
                  rec_blink_state := true,
                  last_message := some Msg.recStarted }
      else
        { st with is_recording := false, has_writer := false,
                  logged := st.logged + 1,
                  last_message := some Msg.recStartFailed }
    else
      if st.has_writer then
        if closeOk then
          { st with is_recording := false, has_writer := false,
                    last_message := some Msg.recStopped }
        else
          { st with is_recording := false, has_writer := false,
                    logged := st.logged + 1,
                    last_message := some Msg.recStopFailed }
      else
        { st with is_recording := false }
  else if key = 103 ∨ key = 71 then
    { st with show_gradient := !st.show_gradient }
  else st

/-- The ten commands of the elif chain, plus the no-command case. -/
inductive Cmd where
  | quit
  | toggleHelp
  | rotate
  | palette
  | interp
  | zoomIn
  | zoomOut
  | snapshot
  | toggleRecord
  | toggleGradient
  | nop
deriving DecidableEq, Repr

/-- Which single command a key code selects, mirroring the elif chain
(including the recording gate on the zoom keys). -/
def classifyKey (key : Nat) (recording : Bool) : Cmd :=
  if key = 113 then Cmd.quit
  else if key = 104 ∨ key = 72 then Cmd.toggleHelp
  else if key = 114 ∨ key = 82 then Cmd.rotate
  else if key = 112 ∨ key = 80 then Cmd.palette
  else if key = 105 ∨ key = 73 then Cmd.interp
  else if (key = 43 ∨ key = 61) ∧ recording = false then Cmd.zoomIn
  else if (key = 45 ∨ key = 95) ∧ recording = false then Cmd.zoomOut
  else if key = 115 ∨ key = 83 then Cmd.snapshot
  else if key = 118 ∨ key = 86 then Cmd.toggleRecord
  else if key = 103 ∨ key = 71 then Cmd.toggleGradient
  else Cmd.nop

/-- The effect of one command in isolation. -/
def applyCmd (c : Cmd) (saveOk sinkOpens snapshotOk closeOk : Bool)
    (st : AppState) : AppState :=
  match c with
  | Cmd.quit => { st with quit := true }
  | Cmd.toggleHelp => { st with show_text := !st.show_text }
  | Cmd.rotate =>
    let r := Int.emod (st.rotation_index + 1) 4
    let st1 := dispatchSave { st with rotation_index := r }
      "rotation_index" (JValue.jint r) saveOk
    { st1 with last_message := some (Msg.rotate (r * 90)) }
  | Cmd.palette =>
    let m := Int.emod (st.map_index + 1) (color_maps.length : Int)
    let st1 := dispatchSave { st with map_index := m }
      "map_index" (JValue.jint m) saveOk
    let msg := Msg.palette (m + 1) (color_maps.length : Int)
    { st1 with last_message := some msg }
  | Cmd.interp =>
    let i := Int.emod (st.interpolation_index + 1)
      (interpolation_type.length : Int)
    let st1 := dispatchSave { st with interpolation_index := i }
      "interpolation_index" (JValue.jint i) saveOk
    let msg := Msg.interp (i + 1) (interpolation_type.length : Int)
    { st1 with last_message := some msg }
  | Cmd.zoomIn =>
    let s := min (st.scale_percent + zoom_step) max_scale
    let st1 := dispatchSave { st with scale_percent := s }
      "scale_percent" (JValue.jint s) saveOk
    { st1 with last_message := some (Msg.scale s) }
  | Cmd.zoomOut =>
    let s := max (st.scale_percent - zoom_step) min_scale
    let st1 := dispatchSave { st with scale_percent := s }
      "scale_percent" (JValue.jint s) saveOk
    { st1 with last_message := some (Msg.scale s) }
  | Cmd.snapshot =>
    if snapshotOk then
      { st with snapshots := st.snapshots + 1,
                last_message := some Msg.snapSaved }
    else
      { st with logged := st.logged + 1,
                last_message := some Msg.snapFailed }
  | Cmd.toggleRecord =>
    if st.is_recording = false then
      if sinkOpens then
        { st with is_recording := true, has_writer := true,
                  rec_blink_state := true,
                  last_message := some Msg.recStarted }
      else
        { st with is_recording := false, has_writer := false,
                  logged := st.logged + 1,
                  last_message := some Msg.recStartFailed }
    else
      if st.has_writer then
        if closeOk then
          { st with is_recording := false, has_writer := false,
                    last_message := some Msg.recStopped }
        else
          { st with is_recording := false, has_writer := false,
                    logged := st.logged + 1,
                    last_message := some Msg.recStopFailed }
      else
        { st with is_recording := false }
  | Cmd.toggleGradient => { st with show_gradient := !st.show_gradient }
  | Cmd.nop => st

/-- The key codes the elif chain of GW192a_test.py recognizes:
q, h, H, r, R, p, P, i, I, plus, equals, minus, underscore, s, S,
v, V, g, G. -/
def recognizedKey (key : Nat) : Prop :=
  key = 113 ∨ key = 104 ∨ key = 72 ∨ key = 114 ∨ key = 82 ∨
  key = 112 ∨ key = 80 ∨ key = 105 ∨ key = 73 ∨ key = 43 ∨
  key = 61 ∨ key = 45 ∨ key = 95 ∨ key = 115 ∨ key = 83 ∨
  key = 118 ∨ key = 86 ∨ key = 103 ∨ key = 71

instance (key : Nat) : Decidable (recognizedKey key) := by
  unfold recognizedKey; infer_instance

/-- A whole session of key handling: one dispatchKey per tick, each
tick with its own outcome flags for save, sink open, imwrite and
release. -/
def runKeys (inputs : List (Nat × Bool × Bool × Bool × Bool))
    (st : AppState) : AppState :=
  inputs.foldl
    (fun s i => dispatchKey i.1 i.2.1 i.2.2.1 i.2.2.2.1 i.2.2.2.2 s) st

/-- A concrete process state (the defaults of GW192a_test.py after a
fresh load), used to instantiate universally quantified theorems. -/
def demoAppState : AppState :=
  { rotation_index := 1, map_index := 0, interpolation_index := 0,
    scale_percent := 650, show_text := false, show_gradient := true,
    is_recording := false, has_writer := false, rec_blink_state := false,
    last_message := none, settingsDict := default_settings,
    disk := some default_settings, snapshots := 0, logged := 0,
    quit := false }

/-- demoAppState zoomed all the way in, its dict and file agreeing. -/
def demoAppStateMax : AppState :=
  { demoAppState with
    scale_percent := 1000,
    settingsDict := dictSet default_settings "scale_percent" (JValue.jint 1000) }

/- ---------------------------------------------------------------
   The toggle-record key of GW192a_test_Windows.py (lines 290-311).
   --------------------------------------------------------------- -/

/-- The recording state the Windows script's v-key handler touches. -/
structure WinRecState where
  is_recording : Bool
  has_writer : Bool
  last_message : Option Msg
deriving DecidableEq, Repr

/-- The v-key handler of GW192a_test_Windows.py. On start it assigns
the VideoWriter and sets is_recording to True unconditionally: the
sink's isOpened is never consulted, so `sinkOpens` is ignored. -/
def winToggleRecord (st : WinRecState) (_sinkOpens : Bool) : WinRecState :=
  if st.is_recording = false then
    { is_recording := true, has_writer := true,
      last_message := some Msg.recStarted }
  else
    if st.has_writer then
      { is_recording := false, has_writer := false,
        last_message := some Msg.recStopped }
    else
      { st with is_recording := false }

/- ---------------------------------------------------------------
   Per-frame overlay dataflow (which image each output receives).
   --------------------------------------------------------------- -/

/-- The overlays the scripts composite onto a frame. -/
inductive Overlay where
  | gradientBar
  | footer
  | helpText
  | transientMsg
  | pointerOutline
  | pointerLabel
  | recIndicator
deriving DecidableEq, Repr

/-- An image in the tick: its pixel dimensions and the overlays drawn
onto it so far, in order. The resized palettized frame starts with no
overlays. -/
structure PFrame where
  width : Nat
  height : Nat
  overlays : List Overlay
deriving DecidableEq, Repr

/-- cv2.putText / gradient compositing: draws one more overlay. -/
def putOverlay (f : PFrame) (o : Overlay) : PFrame :=
  { f with overlays := f.overlays ++ [o] }

/-- The resized, palettized image of the current tick, before any
drawing: the recordable frame. -/
def cleanFrame (w h : Nat) : PFrame := ⟨w, h, []⟩

/-- The frames a tick hands to each output sink. -/
structure TickFrames where
  display : PFrame
  recorded : Option PFrame
  snapshotWritten : Option PFrame
deriving DecidableEq, Repr

/-- The frame dataflow of one GW192a_test.py tick (lines 266-403):
display_frame is a copy of clean_frame; the gradient bar, footer, help
block, transient message, pointer readout and REC indicator are drawn
on the copy; the recording write (line 362) and the s-key snapshot
(line 399) both receive clean_frame itself. -/
def mainTickFrames (w h : Nat)
    (showGradient showText msgActive recording blink hasWriter
     snapKey : Bool) : TickFrames :=
  let clean := cleanFrame w h
  let d0 := clean
  let d1 := if showGradient then putOverlay d0 Overlay.gradientBar else d0
  let d2 := putOverlay d1 Overlay.footer
  let d3 := if showText then putOverlay d2 Overlay.helpText else d2
  let d4 := if msgActive then putOverlay d3 Overlay.transientMsg else d3
  let d5 := putOverlay (putOverlay d4 Overlay.pointerOutline)
    Overlay.pointerLabel
  let d6 := if recording && blink then putOverlay d5 Overlay.recIndicator
            else d5
  { display := d6,
    recorded := if recording && hasWriter then some clean else none,
    snapshotWritten := if snapKey then some clean else none }

/-- The frame dataflow of one GW192a_test_Windows.py tick (lines
180-289): there is no copy — every overlay is drawn on `frame` itself.
The recording write (line 201) happens before any drawing, so it still
receives the clean frame; the s-key snapshot (line 289) runs after the
footer, help and message have been drawn, so it receives the overlaid
display frame. -/
def winTickFrames (w h : Nat)
    (showText msgActive recording blink hasWriter snapKey : Bool) :
    TickFrames :=
  let f0 := cleanFrame w h
  let recOut := if recording && hasWriter then some f0 else none
  let f1 := if recording && hasWriter && blink then
              putOverlay f0 Overlay.recIndicator
            else f0
  let f2 := putOverlay f1 Overlay.footer
  let f3 := if showText then putOverlay f2 Overlay.helpText else f2
  let f4 := if msgActive then putOverlay f3 Overlay.transientMsg else f3
  { display := f4,
    recorded := recOut,
    snapshotWritten := if snapKey then some f4 else none }

/- ---------------------------------------------------------------
   Pointer readout (GW192a_test.py lines 266-267 and 319-328).
   --------------------------------------------------------------- -/

/-- One display dimension: `max(1, int(src * scale_percent / 100))`. -/
def newDim (src scale : Nat) : Nat := max 1 (src * scale / 100)

/-- `int(mouse / scale_percent * 100)` with the float arithmetic made
exact: truncating (toward-zero) integer division, which Int.tdiv is. -/
def origFromMouse (mouse scale : Int) : Int := Int.tdiv (mouse * 100) scale

/-- The defensive bounds of lines 324-325:
`min(max(coord, 0), bound - 1)`. -/
def clampIdx (x : Int) (bound : Nat) : Int :=
  min (max x 0) ((bound : Int) - 1)

/-- The whole mapping from a display-space pointer coordinate to a
source-frame index along one axis. -/
def pointerIndex (mouse : Int) (scale : Nat) (src : Nat) : Int :=
  clampIdx (origFromMouse mouse (scale : Int)) src


/- ---------------------------------------------------------------
   Helper lemmas about the dict operations and the merge loops.
   --------------------------------------------------------------- -/

theorem dictGet_dictSet_self (d : Settings) (k : String) (v : JValue) :
    dictGet (dictSet d k v) k = some v := by
  induction d with
  | nil => simp [dictSet, dictGet]
  | cons hd tl ih =>
    by_cases h : hd.1 = k
    · obtain ⟨a, b⟩ := hd
      simp_all [dictSet, dictGet]
    · obtain ⟨a, b⟩ := hd
      simp_all [dictSet, dictGet]

theorem dictGet_dictSet_ne (d : Settings) (k k' : String) (v : JValue)
    (h : k' ≠ k) : dictGet (dictSet d k' v) k = dictGet d k := by
  induction d with
  | nil => simp [dictSet, dictGet, h]
  | cons hd tl ih =>
    obtain ⟨a, b⟩ := hd
    by_cases ha : a = k'
    · subst ha
      simp [dictSet, dictGet, h]
    · simp [dictSet, dictGet, ha]
      by_cases hk : a = k <;> simp [hk, ih]

theorem dictGet_eq_some_dictSet_eq (d : Settings) (k : String)
    (v : JValue) (h : dictGet d k = some v) : dictSet d k v = d := by
  induction d with
  | nil => simp [dictGet] at h
  | cons hd tl ih =>
    obtain ⟨a, b⟩ := hd
    by_cases ha : a = k
    · subst ha
      simp [dictGet] at h
      simp [dictSet, h]
    · simp [dictGet, ha] at h
      simp [dictSet, ha, ih h]

/-- Keys whose name differs from every default key are untouched by the
merge loop of GW192a_test.py. -/
theorem mergeList_dictGet_not_mem (defs : List (String × JValue))
    (data : Settings) (ch : Bool) (k : String)
    (hk : ∀ p ∈ defs, p.1 ≠ k) :
    dictGet (mergeList defs data ch).1 k = dictGet data k := by
  induction defs generalizing data ch with
  | nil => rfl
  | cons hd tl ih =>
    obtain ⟨a, v⟩ := hd
    have hka : a ≠ k := hk (a, v) (List.mem_cons_self _ _)
    have hktl : ∀ p ∈ tl, p.1 ≠ k := fun p hp => hk p (List.mem_cons_of_mem _ hp)
    cases hget : dictGet data a with
    | none =>
      rw [mergeList, hget, ih _ _ hktl, dictGet_dictSet_ne _ _ _ _ hka]
    | some x =>
      by_cases hinst : pyIsinstance x v
      · rw [mergeList, hget]
        simp only [hinst, if_true]
        exact ih _ _ hktl
      · rw [mergeList, hget]
        simp only [hinst, Bool.false_eq_true, if_false]
        rw [ih _ _ hktl, dictGet_dictSet_ne _ _ _ _ hka]

theorem pyIsinstance_self (x : JValue) : pyIsinstance x x = true := by
  cases x <;> rfl

/-- After the merge loop of GW192a_test.py, every default key maps to
a value that passes the isinstance check against its default. -/
theorem mergeList_sound (defs : List (String × JValue)) (data : Settings)
    (ch : Bool) (k : String) (v : JValue)
    (hnd : List.Pairwise (fun p q => p.1 ≠ q.1) defs)
    (hmem : (k, v) ∈ defs) :
    ∃ x, dictGet (mergeList defs data ch).1 k = some x ∧
      pyIsinstance x v = true := by
  induction defs generalizing data ch with
  | nil => simp at hmem
  | cons hd tl ih =>
    obtain ⟨a, w⟩ := hd
    obtain ⟨hhead, hndtl⟩ := List.pairwise_cons.mp hnd
    rcases List.mem_cons.mp hmem with hhd | htl
    · injection hhd with hka hvw
      subst hka
      subst hvw
      have hknot : ∀ p ∈ tl, p.1 ≠ k := fun p hp => (hhead p hp).symm
      cases hget : dictGet data k with
      | none =>
        rw [mergeList, hget]
        refine ⟨v, ?_, pyIsinstance_self v⟩
        rw [mergeList_dictGet_not_mem _ _ _ _ hknot, dictGet_dictSet_self]
      | some x =>
        by_cases hinst : pyIsinstance x v
        · rw [mergeList, hget]
          simp only [hinst, if_true]
          refine ⟨x, ?_, hinst⟩
          rw [mergeList_dictGet_not_mem _ _ _ _ hknot, hget]
        · rw [mergeList, hget]
          simp only [hinst, Bool.false_eq_true, if_false]
          refine ⟨v, ?_, pyIsinstance_self v⟩
          rw [mergeList_dictGet_not_mem _ _ _ _ hknot, dictGet_dictSet_self]
    · cases hget : dictGet data a with
      | none => rw [mergeList, hget]; exact ih _ _ hndtl htl
      | some x =>
        by_cases hinst : pyIsinstance x w
        · rw [mergeList, hget]
          simp only [hinst, if_true]
          exact ih _ _ hndtl htl
        · rw [mergeList, hget]
          simp only [hinst, Bool.false_eq_true, if_false]
          exact ih _ _ hndtl htl

/-- The merge loop of GW192a_test.py keeps any on-disk entry that
passes the isinstance check against its default. -/
theorem mergeList_preserves (defs : List (String × JValue))
    (data : Settings) (ch : Bool) (k : String) (v x : JValue)
    (hnd : List.Pairwise (fun p q => p.1 ≠ q.1) defs)
    (hmem : (k, v) ∈ defs)
    (hinst : pyIsinstance x v = true) (hget : dictGet data k = some x) :
    dictGet (mergeList defs data ch).1 k = some x := by
  induction defs generalizing data ch with
  | nil => simp at hmem
  | cons hd tl ih =>
    obtain ⟨a, w⟩ := hd
    obtain ⟨hhead, hndtl⟩ := List.pairwise_cons.mp hnd
    rcases List.mem_cons.mp hmem with hhd | htl
    · injection hhd with hka hvw
      subst hka
      subst hvw
      have hknot : ∀ p ∈ tl, p.1 ≠ k := fun p hp => (hhead p hp).symm
      rw [mergeList, hget]
      simp only [hinst, if_true]
      rw [mergeList_dictGet_not_mem _ _ _ _ hknot, hget]
    · have hak : a ≠ k := by
        intro hcon
        subst hcon
        exact (hhead (a, v) htl) rfl
      cases hget' : dictGet data a with
      | none =>
        rw [mergeList, hget']
        exact ih _ _ hndtl htl (by rw [dictGet_dictSet_ne _ _ _ _ hak, hget])
      | some y =>
        by_cases hinst' : pyIsinstance y w
        · rw [mergeList, hget']
          simp only [hinst', if_true]
          exact ih _ _ hndtl htl hget
        · rw [mergeList, hget']
          simp only [hinst', Bool.false_eq_true, if_false]
          exact ih _ _ hndtl htl
            (by rw [dictGet_dictSet_ne _ _ _ _ hak, hget])

theorem pyInt_of_int_typed (x : JValue) (c : Int)
    (h : pyIsinstance x (JValue.jint c) = true) :
    ∃ m, pyInt x = some m := by
  cases x <;> simp_all [pyIsinstance, pyInt]

theorem default_settings_pairwise :
    List.Pairwise (fun p q : String × JValue => p.1 ≠ q.1)
      default_settings := by decide

/-- Whatever the settings file held, GW192a_test.py reaches its main
loop with a configuration whose indices are normalized and whose scale
is clamped. -/
theorem mainPostLoad_total_bounds (d : DiskState) :
    ∃ c, mainPostLoad d = some c ∧
      0 ≤ c.rotation_index ∧ c.rotation_index < 4 ∧
      0 ≤ c.map_index ∧ c.map_index < 22 ∧
      0 ≤ c.interpolation_index ∧ c.interpolation_index < 8 ∧
      150 ≤ c.scale_percent ∧ c.scale_percent ≤ 1000 := by
  have hlen4 : (rotation_modes.length : Int) = 4 := by decide
  have hlen22 : (color_maps.length : Int) = 22 := by decide
  have hlen8 : (interpolation_type.length : Int) = 8 := by decide
  cases d with
  | absent => exact ⟨⟨1, 0, 0, 650⟩, by decide⟩
  | unparseable => exact ⟨⟨1, 0, 0, 650⟩, by decide⟩
  | parsed data =>
    obtain ⟨xr, hgr, hir⟩ := mergeList_sound default_settings data false
      "rotation_index" (JValue.jint 1) default_settings_pairwise (by decide)
    obtain ⟨xm, hgm, him⟩ := mergeList_sound default_settings data false
      "map_index" (JValue.jint 0) default_settings_pairwise (by decide)
    obtain ⟨xi, hgi, hii⟩ := mergeList_sound default_settings data false
      "interpolation_index" (JValue.jint 0) default_settings_pairwise
      (by decide)
    obtain ⟨xs, hgs, his⟩ := mergeList_sound default_settings data false
      "scale_percent" (JValue.jint 650) default_settings_pairwise (by decide)
    obtain ⟨mr, hmr⟩ := pyInt_of_int_typed xr 1 hir
    obtain ⟨mm, hmm⟩ := pyInt_of_int_typed xm 0 him
    obtain ⟨mi, hmi⟩ := pyInt_of_int_typed xi 0 hii
    obtain ⟨ms, hms⟩ := pyInt_of_int_typed xs 650 his
    refine ⟨normalizeConfig ⟨mr, mm, mi, ms⟩, ?_, ?_⟩
    · simp [mainPostLoad, load_settings, configFromSettings, pyGet,
        hgr, hgm, hgi, hgs, hmr, hmm, hmi, hms]
    · simp only [normalizeConfig, hlen4, hlen22, hlen8]
      refine ⟨Int.emod_nonneg mr (by decide),
        Int.emod_lt_of_pos mr (by decide),
        Int.emod_nonneg mm (by decide),
        Int.emod_lt_of_pos mm (by decide),
        Int.emod_nonneg mi (by decide),
        Int.emod_lt_of_pos mi (by decide), ?_, ?_⟩
      · simp only [min_scale, max_scale]
        omega
      · simp only [min_scale, max_scale]
        omega

/-- The elif chain of GW192a_test.py selects, and applies, exactly one
command per tick: dispatchKey factors through classifyKey. -/
theorem dispatchKey_eq_applyCmd (key : Nat) (f1 f2 f3 f4 : Bool)
    (st : AppState) :
    dispatchKey key f1 f2 f3 f4 st =
      applyCmd (classifyKey key st.is_recording) f1 f2 f3 f4 st := by
  unfold dispatchKey classifyKey
  by_cases h1 : key = 113
  · simp only [if_pos h1]; rfl
  simp only [if_neg h1]
  by_cases h2 : key = 104 ∨ key = 72
  · simp only [if_pos h2]; rfl
  simp only [if_neg h2]
  by_cases h3 : key = 114 ∨ key = 82
  · simp only [if_pos h3]; rfl
  simp only [if_neg h3]
  by_cases h4 : key = 112 ∨ key = 80
  · simp only [if_pos h4]; rfl
  simp only [if_neg h4]
  by_cases h5 : key = 105 ∨ key = 73
  · simp only [if_pos h5]; rfl
  simp only [if_neg h5]
  by_cases h6 : (key = 43 ∨ key = 61) ∧ st.is_recording = false
  · simp only [if_pos h6]; rfl
  simp only [if_neg h6]
  by_cases h7 : (key = 45 ∨ key = 95) ∧ st.is_recording = false
  · simp only [if_pos h7]; rfl
  simp only [if_neg h7]
  by_cases h8 : key = 115 ∨ key = 83
  · simp only [if_pos h8]; rfl
  simp only [if_neg h8]
  by_cases h9 : key = 118 ∨ key = 86
  · simp only [if_pos h9]; rfl
  simp only [if_neg h9]
  by_cases h10 : key = 103 ∨ key = 71
  · simp only [if_pos h10]; rfl
  simp only [if_neg h10]
  rfl

theorem dispatchKey_scale_bounds (key : Nat) (f1 f2 f3 f4 : Bool)
    (st : AppState) (h1 : min_scale ≤ st.scale_percent)
    (h2 : st.scale_percent ≤ max_scale) :
    min_scale ≤ (dispatchKey key f1 f2 f3 f4 st).scale_percent ∧
      (dispatchKey key f1 f2 f3 f4 st).scale_percent ≤ max_scale := by
  rw [dispatchKey_eq_applyCmd]
  cases classifyKey key st.is_recording with
  | quit => exact ⟨h1, h2⟩
  | toggleHelp => exact ⟨h1, h2⟩
  | rotate => exact ⟨h1, h2⟩
  | palette => exact ⟨h1, h2⟩
  | interp => exact ⟨h1, h2⟩
  | zoomIn =>
    simp only [applyCmd, dispatchSave, zoom_step, max_scale, min_scale] at *
    omega
  | zoomOut =>
    simp only [applyCmd, dispatchSave, zoom_step, max_scale, min_scale] at *
    omega
  | snapshot =>
    simp only [applyCmd]
    split_ifs <;> exact ⟨h1, h2⟩
  | toggleRecord =>
    simp only [applyCmd]
    split_ifs <;> exact ⟨h1, h2⟩
  | toggleGradient => exact ⟨h1, h2⟩
  | nop => exact ⟨h1, h2⟩

theorem runKeys_scale_bounds
    (inputs : List (Nat × Bool × Bool × Bool × Bool)) (st : AppState)
    (h1 : min_scale ≤ st.scale_percent)
    (h2 : st.scale_percent ≤ max_scale) :
    min_scale ≤ (runKeys inputs st).scale_percent ∧
      (runKeys inputs st).scale_percent ≤ max_scale := by
  induction inputs generalizing st with
  | nil => exact ⟨h1, h2⟩
  | cons hd tl ih =>
    obtain ⟨hb1, hb2⟩ := dispatchKey_scale_bounds hd.1 hd.2.1 hd.2.2.1
      hd.2.2.2.1 hd.2.2.2.2 st h1 h2
    simpa only [runKeys, List.foldl_cons] using
      ih (dispatchKey hd.1 hd.2.1 hd.2.2.1 hd.2.2.2.1 hd.2.2.2.2 st) hb1 hb2

/-- C2 (amended): in GW192a_test.py, for every possible on-disk
settings state — negative, over-range or non-integer-typed values
included — the load, int() extraction and defensive-bounds pipeline
succeeds and yields every index inside its domain, so no per-frame
list lookup is out of bounds. (GW192a_test_Windows.py performs no such
normalization; see the counterexample theorem.) -/
theorem main_indices_in_range_after_load (d : DiskState) :
    ∃ c, mainPostLoad d = some c ∧
      0 ≤ c.rotation_index ∧
      c.rotation_index < (rotation_modes.length : Int) ∧
      0 ≤ c.map_index ∧ c.map_index < (color_maps.length : Int) ∧
      0 ≤ c.interpolation_index ∧
      c.interpolation_index < (interpolation_type.length : Int) := by
  have h4 : (rotation_modes.length : Int) = 4 := by decide
  have h22 : (color_maps.length : Int) = 22 := by decide
  have h8 : (interpolation_type.length : Int) = 8 := by decide
  rw [h4, h22, h8]
  obtain ⟨c, hc, b1, b2, b3, b4, b5, b6, _, _⟩ := mainPostLoad_total_bounds d
  exact ⟨c, hc, b1, b2, b3, b4, b5, b6⟩

/-- C2 counterexample: GW192a_test_Windows.py applies no normalization
after load, so a persisted rotation_index of 7 reaches the main loop
as 7, outside [0, 4) — the claim's bound fails on that script. -/
theorem win_rotation_not_normalized :
    winPostLoad (DiskState.parsed
      [("rotation_index", JValue.jint 7), ("map_index", JValue.jint 0),
       ("interpolation_index", JValue.jint 0),
       ("scale_percent", JValue.jint 600)]) =
      some ⟨7, 0, 0, 600⟩ ∧
    ¬ ((7 : Int) < (rotation_modes.length : Int)) := by decide

/-- C3: in GW192a_test.py, scale_percent lies in
[min_scale, max_scale] after load for every on-disk state; every key
dispatch — in particular both zoom commands — preserves those bounds,
as does any sequence of dispatches; a persisted value of 50000 loads
as max_scale; and a zoom-in issued at max_scale leaves both the
in-memory value and the persisted dict content unchanged while still
saving successfully. -/
theorem scale_percent_always_clamped :
    (∀ d, ∃ c, mainPostLoad d = some c ∧
      min_scale ≤ c.scale_percent ∧ c.scale_percent ≤ max_scale) ∧
    (∀ key f1 f2 f3 f4 st, min_scale ≤ AppState.scale_percent st →
      AppState.scale_percent st ≤ max_scale →
      min_scale ≤ (dispatchKey key f1 f2 f3 f4 st).scale_percent ∧
        (dispatchKey key f1 f2 f3 f4 st).scale_percent ≤ max_scale) ∧
    (∀ inputs st, min_scale ≤ AppState.scale_percent st →
      AppState.scale_percent st ≤ max_scale →
      min_scale ≤ (runKeys inputs st).scale_percent ∧
        (runKeys inputs st).scale_percent ≤ max_scale) ∧
    (mainPostLoad (DiskState.parsed [("scale_percent", JValue.jint 50000)]) =
      some ⟨1, 0, 0, 1000⟩ ∧ (1000 : Int) = max_scale) ∧
    (∀ f1 f3 f4 st, AppState.is_recording st = false →
      AppState.scale_percent st = max_scale →
      dictGet (AppState.settingsDict st) "scale_percent" =
        some (JValue.jint max_scale) →
      (dispatchKey 43 f1 true f3 f4 st).scale_percent = max_scale ∧
      (dispatchKey 43 f1 true f3 f4 st).settingsDict =
        AppState.settingsDict st ∧
      (f1 = true → (dispatchKey 43 f1 true f3 f4 st).disk =
        some (AppState.settingsDict st))) := by
  refine ⟨?_, ?_, ?_, by decide, ?_⟩
  · intro d
    obtain ⟨c, hc, _, _, _, _, _, _, b7, b8⟩ := mainPostLoad_total_bounds d
    exact ⟨c, hc, b7, b8⟩
  · exact fun key f1 f2 f3 f4 st h1 h2 =>
      dispatchKey_scale_bounds key f1 f2 f3 f4 st h1 h2
  · exact fun inputs st h1 h2 => runKeys_scale_bounds inputs st h1 h2
  · intro f1 f3 f4 st hrec hscale hdict
    rw [dispatchKey_eq_applyCmd, hrec]
    have hcl : classifyKey 43 false = Cmd.zoomIn := by decide
    rw [hcl]
    have hs : min (st.scale_percent + zoom_step) max_scale = max_scale := by
      rw [hscale]
      simp only [max_scale, zoom_step]
      omega
    have hset : dictSet st.settingsDict "scale_percent"
        (JValue.jint max_scale) = st.settingsDict :=
      dictGet_eq_some_dictSet_eq _ _ _ hdict
    simp only [applyCmd, dispatchSave, hs, hset]
    refine ⟨trivial, trivial, ?_⟩
    intro hf1
    simp [hf1]

/-- C3 witness: the concrete state at maximum zoom, with its dict in
sync with the file, exercises every hypothesis of
scale_percent_always_clamped. -/
theorem scale_percent_always_clamped_witness :
    (min_scale ≤ (dispatchKey 43 true true true true
        demoAppState).scale_percent ∧
      (dispatchKey 43 true true true true demoAppState).scale_percent ≤
        max_scale) ∧
    (min_scale ≤ (runKeys [(43, true, true, true, true)]
        demoAppState).scale_percent ∧
      (runKeys [(43, true, true, true, true)]
        demoAppState).scale_percent ≤ max_scale) ∧
    ((dispatchKey 43 true true true true demoAppStateMax).scale_percent =
        max_scale ∧
      (dispatchKey 43 true true true true demoAppStateMax).settingsDict =
        AppState.settingsDict demoAppStateMax ∧
      (true = true → (dispatchKey 43 true true true true
          demoAppStateMax).disk =
        some (AppState.settingsDict demoAppStateMax))) :=
  ⟨scale_percent_always_clamped.2.1 43 true true true true demoAppState
      (by decide) (by decide),
   scale_percent_always_clamped.2.2.1 [(43, true, true, true, true)]
      demoAppState (by decide) (by decide),
   scale_percent_always_clamped.2.2.2.2 true true true demoAppStateMax
      (by decide) (by decide) (by decide)⟩

/-- C5 counterexample: with no settings file, GW192a_test.py loads and
persists scale_percent 650, not the claimed 600. -/
theorem main_fresh_default_scale_650 :
    mainPostLoad DiskState.absent = some ⟨1, 0, 0, 650⟩ ∧
    dictGet (load_settings DiskState.absent).1 "scale_percent" =
      some (JValue.jint 650) ∧
    (650 : Int) ≠ 600 := by decide

/-- C5 (amended): in a fresh environment with no settings file,
GW192a_test_Windows.py returns rotation_index 1, map_index 0,
interpolation_index 0, scale_percent 600 and persists exactly its
default dict; GW192a_test.py does the same except that its default
scale_percent is 650 (and its default dict additionally carries the
camera index and comment keys). -/
theorem fresh_load_creates_defaults :
    winPostLoad DiskState.absent = some ⟨1, 0, 0, 600⟩ ∧
    (win_load_settings DiskState.absent).1 = win_default_settings ∧
    (win_load_settings DiskState.absent).2 = some win_default_settings ∧
    mainPostLoad DiskState.absent = some ⟨1, 0, 0, 650⟩ ∧
    (load_settings DiskState.absent).1 = default_settings ∧
    (load_settings DiskState.absent).2 = some default_settings := by
  decide

/-- C9: a JSON boolean stored under any of the four integer-typed keys
passes the isinstance check of GW192a_test.py's load_settings (Python
bool is a subclass of int), so it is not replaced by the default and
is returned as-is in the loaded dict; int() then turns True into 1 and
False into 0, which is what the modulo/clamp normalization receives —
shown for rotation_index, whose post-normalization value is exactly
1 or 0. -/
theorem bool_passes_int_typed_check :
    (∀ (data : Settings) (k : String) (b : Bool),
      (k = "rotation_index" ∨ k = "map_index" ∨
        k = "interpolation_index" ∨ k = "scale_percent") →
      dictGet data k = some (JValue.jbool b) →
      dictGet (load_settings (DiskState.parsed data)).1 k =
        some (JValue.jbool b)) ∧
    pyInt (JValue.jbool true) = some 1 ∧
    pyInt (JValue.jbool false) = some 0 ∧
    (∀ (data : Settings) (b : Bool),
      dictGet data "rotation_index" = some (JValue.jbool b) →
      ∃ c, mainPostLoad (DiskState.parsed data) = some c ∧
        c.rotation_index = (if b then 1 else 0)) := by
  refine ⟨?_, rfl, rfl, ?_⟩
  · intro data k b hk hget
    simp only [load_settings]
    rcases hk with h | h | h | h <;> subst h
    · exact mergeList_preserves default_settings data false _
        (JValue.jint 1) (JValue.jbool b) default_settings_pairwise
        (by decide) rfl hget
    · exact mergeList_preserves default_settings data false _
        (JValue.jint 0) (JValue.jbool b) default_settings_pairwise
        (by decide) rfl hget
    · exact mergeList_preserves default_settings data false _
        (JValue.jint 0) (JValue.jbool b) default_settings_pairwise
        (by decide) rfl hget
    · exact mergeList_preserves default_settings data false _
        (JValue.jint 650) (JValue.jbool b) default_settings_pairwise
        (by decide) rfl hget
  · intro data b hget
    have hr : dictGet (mergeList default_settings data false).1
        "rotation_index" = some (JValue.jbool b) :=
      mergeList_preserves default_settings data false _
        (JValue.jint 1) (JValue.jbool b) default_settings_pairwise
        (by decide) rfl hget
    obtain ⟨xm, hgm, him⟩ := mergeList_sound default_settings data false
      "map_index" (JValue.jint 0) default_settings_pairwise (by decide)
    obtain ⟨xi, hgi, hii⟩ := mergeList_sound default_settings data false
      "interpolation_index" (JValue.jint 0) default_settings_pairwise
      (by decide)
    obtain ⟨xs, hgs, his⟩ := mergeList_sound default_settings data false
      "scale_percent" (JValue.jint 650) default_settings_pairwise (by decide)
    obtain ⟨mm, hmm⟩ := pyInt_of_int_typed xm 0 him
    obtain ⟨mi, hmi⟩ := pyInt_of_int_typed xi 0 hii
    obtain ⟨ms, hms⟩ := pyInt_of_int_typed xs 650 his
    refine ⟨normalizeConfig ⟨if b then 1 else 0, mm, mi, ms⟩, ?_, ?_⟩
    · have hpb : pyInt (JValue.jbool b) = some (if b then 1 else 0) := rfl
      simp [mainPostLoad, load_settings, configFromSettings, pyGet,
        hr, hgm, hgi, hgs, hpb, hmm, hmi, hms]
    · cases b <;> simp [normalizeConfig, rotation_modes] <;> decide

/-- C9 witness: a settings file holding true under rotation_index. -/
theorem bool_passes_int_typed_check_witness :
    dictGet (load_settings (DiskState.parsed
      [("rotation_index", JValue.jbool true)])).1 "rotation_index" =
      some (JValue.jbool true) ∧
    (∃ c, mainPostLoad (DiskState.parsed
      [("rotation_index", JValue.jbool true)]) = some c ∧
      c.rotation_index = (if true then 1 else 0)) :=
  ⟨bool_passes_int_typed_check.1
      [("rotation_index", JValue.jbool true)] "rotation_index" true
      (Or.inl rfl) (by decide),
   bool_passes_int_typed_check.2.2.2
      [("rotation_index", JValue.jbool true)] true (by decide)⟩

/-- C1: atomic_save_json persists atomically. A successful run makes
the canonical file exactly the new document and leaves no temp file;
every failing run returns false, leaves the canonical path untouched,
and removes the temp file whenever the removal itself succeeds; a run
whose process is killed before the atomic rename leaves the canonical
path untouched, and in every interrupted run the canonical file stays
parseable by the next load if it was parseable before. -/
theorem atomic_save_json_atomic :
    (∀ fs data cleanupOk,
      atomic_save_json fs data SaveOutcome.ok cleanupOk =
        ({ canonical := some (FileData.complete data), temp := none },
          true)) ∧
    (∀ fs data out cleanupOk, out ≠ SaveOutcome.ok →
      (atomic_save_json fs data out cleanupOk).2 = false ∧
      (atomic_save_json fs data out cleanupOk).1.canonical =
        fs.canonical ∧
      (cleanupOk = true →
        (atomic_save_json fs data out cleanupOk).1.temp = none ∨
        (atomic_save_json fs data out cleanupOk).1.temp = fs.temp)) ∧
    (∀ fs data steps, steps < 3 →
      (atomic_save_interrupted fs data steps).canonical = fs.canonical) ∧
    (∀ fs data steps, canonicalParses fs.canonical = true →
      canonicalParses
        (atomic_save_interrupted fs data steps).canonical = true) := by
  refine ⟨fun fs data c => rfl, ?_, ?_, ?_⟩
  · intro fs data out c hne
    cases out with
    | ok => exact absurd rfl hne
    | failMkstemp => exact ⟨rfl, rfl, fun _ => Or.inr rfl⟩
    | failWrite =>
      exact ⟨rfl, rfl, fun hc => Or.inl (by simp [atomic_save_json, hc])⟩
    | failFsync =>
      exact ⟨rfl, rfl, fun hc => Or.inl (by simp [atomic_save_json, hc])⟩
    | failReplace =>
      exact ⟨rfl, rfl, fun hc => Or.inl (by simp [atomic_save_json, hc])⟩
  · intro fs data steps hlt
    unfold atomic_save_interrupted
    split_ifs <;> first | rfl | omega
  · intro fs data steps hp
    unfold atomic_save_interrupted
    split_ifs <;> simp_all [canonicalParses]

/-- C1 witness: a failed rename and two interrupted saves over a file
already holding a parseable document. -/
theorem atomic_save_json_atomic_witness :
    (atomic_save_json
        ⟨some (FileData.complete win_default_settings), none⟩
        default_settings SaveOutcome.failReplace true).2 = false ∧
    (atomic_save_json
        ⟨some (FileData.complete win_default_settings), none⟩
        default_settings SaveOutcome.failReplace true).1.canonical =
      FS.canonical ⟨some (FileData.complete win_default_settings), none⟩ ∧
    (atomic_save_interrupted
        ⟨some (FileData.complete win_default_settings), none⟩
        default_settings 2).canonical =
      FS.canonical ⟨some (FileData.complete win_default_settings), none⟩ ∧
    canonicalParses
      (atomic_save_interrupted
        ⟨some (FileData.complete win_default_settings), none⟩
        default_settings 1).canonical = true :=
  ⟨(atomic_save_json_atomic.2.1
      ⟨some (FileData.complete win_default_settings), none⟩
      default_settings SaveOutcome.failReplace true (by decide)).1,
   (atomic_save_json_atomic.2.1
      ⟨some (FileData.complete win_default_settings), none⟩
      default_settings SaveOutcome.failReplace true (by decide)).2.1,
   atomic_save_json_atomic.2.2.1
      ⟨some (FileData.complete win_default_settings), none⟩
      default_settings 2 (by decide),
   atomic_save_json_atomic.2.2.2
      ⟨some (FileData.complete win_default_settings), none⟩
      default_settings 1 (by decide)⟩

/-- C8: updating a key with the value the dict already holds leaves
the dict — and hence the serialized document a save writes — unchanged
from a previous save of the same configuration, and still reports
success when the write succeeds. -/
theorem update_with_current_value_noop :
    ∀ (settings : Settings) (k : String) (v : JValue) (fs : FS)
      (cleanupOk : Bool),
      dictGet settings k = some v →
      (update_and_save settings k v fs SaveOutcome.ok cleanupOk).1 =
        settings ∧
      (update_and_save settings k v fs SaveOutcome.ok cleanupOk).2.2 =
        true ∧
      (update_and_save settings k v fs SaveOutcome.ok cleanupOk).2.1 =
        (atomic_save_json fs settings SaveOutcome.ok cleanupOk).1 := by
  intro settings k v fs c hget
  have hset := dictGet_eq_some_dictSet_eq settings k v hget
  simp [update_and_save, hset, atomic_save_json]

/-- C8 witness: re-writing scale_percent 600 into the Windows default
dict. -/
theorem update_with_current_value_noop_witness :
    (update_and_save win_default_settings "scale_percent"
        (JValue.jint 600) ⟨none, none⟩ SaveOutcome.ok true).1 =
      win_default_settings ∧
    (update_and_save win_default_settings "scale_percent"
        (JValue.jint 600) ⟨none, none⟩ SaveOutcome.ok true).2.2 = true ∧
    (update_and_save win_default_settings "scale_percent"
        (JValue.jint 600) ⟨none, none⟩ SaveOutcome.ok true).2.1 =
      (atomic_save_json ⟨none, none⟩ win_default_settings
        SaveOutcome.ok true).1 :=
  update_with_current_value_noop win_default_settings "scale_percent"
    (JValue.jint 600) ⟨none, none⟩ true (by decide)

theorem classifyKey_nop (key : Nat) (recording : Bool)
    (hk : ¬ recognizedKey key) : classifyKey key recording = Cmd.nop := by
  have hx : ∀ m : Nat, recognizedKey m → key ≠ m :=
    fun m hr he => hk (by rw [he]; exact hr)
  have n1 : ¬ key = 113 := hx 113 (by decide)
  have n2 : ¬ (key = 104 ∨ key = 72) :=
    not_or.mpr ⟨hx 104 (by decide), hx 72 (by decide)⟩
  have n3 : ¬ (key = 114 ∨ key = 82) :=
    not_or.mpr ⟨hx 114 (by decide), hx 82 (by decide)⟩
  have n4 : ¬ (key = 112 ∨ key = 80) :=
    not_or.mpr ⟨hx 112 (by decide), hx 80 (by decide)⟩
  have n5 : ¬ (key = 105 ∨ key = 73) :=
    not_or.mpr ⟨hx 105 (by decide), hx 73 (by decide)⟩
  have n6 : ¬ ((key = 43 ∨ key = 61) ∧ recording = false) :=
    fun h => not_or.mpr ⟨hx 43 (by decide), hx 61 (by decide)⟩ h.1
  have n7 : ¬ ((key = 45 ∨ key = 95) ∧ recording = false) :=
    fun h => not_or.mpr ⟨hx 45 (by decide), hx 95 (by decide)⟩ h.1
  have n8 : ¬ (key = 115 ∨ key = 83) :=
    not_or.mpr ⟨hx 115 (by decide), hx 83 (by decide)⟩
  have n9 : ¬ (key = 118 ∨ key = 86) :=
    not_or.mpr ⟨hx 118 (by decide), hx 86 (by decide)⟩
  have n10 : ¬ (key = 103 ∨ key = 71) :=
    not_or.mpr ⟨hx 103 (by decide), hx 71 (by decide)⟩
  unfold classifyKey
  rw [if_neg n1, if_neg n2, if_neg n3, if_neg n4, if_neg n5, if_neg n6,
    if_neg n7, if_neg n8, if_neg n9, if_neg n10]

/-- C10: a tick whose polled key is none of the recognized command
keys — the no-key case included — leaves the entire process state
unchanged (configuration, UI toggles, recording state, transient
message, in-memory dict, settings file, snapshot and log counters),
and every tick applies the effect of at most one command: dispatchKey
factors through classifyKey, whose nop case is the identity. -/
theorem unrecognized_key_is_noop :
    (∀ key f1 f2 f3 f4 st, ¬ recognizedKey key →
      dispatchKey key f1 f2 f3 f4 st = st) ∧
    (∀ key f1 f2 f3 f4 st,
      dispatchKey key f1 f2 f3 f4 st =
        applyCmd (classifyKey key st.is_recording) f1 f2 f3 f4 st) ∧
    (∀ key recording, ¬ recognizedKey key →
      classifyKey key recording = Cmd.nop) ∧
    (∀ f1 f2 f3 f4 st, applyCmd Cmd.nop f1 f2 f3 f4 st = st) := by
  refine ⟨?_, dispatchKey_eq_applyCmd, classifyKey_nop,
    fun f1 f2 f3 f4 st => rfl⟩
  intro key f1 f2 f3 f4 st hk
  rw [dispatchKey_eq_applyCmd, classifyKey_nop key st.is_recording hk]
  rfl

/-- C10 witness: the idle no-key tick (waitKey timeout value 255). -/
theorem unrecognized_key_is_noop_witness :
    dispatchKey 255 true true true true demoAppState = demoAppState ∧
    classifyKey 255 false = Cmd.nop :=
  ⟨unrecognized_key_is_noop.1 255 true true true true demoAppState
      (by decide),
   unrecognized_key_is_noop.2.2.1 255 false (by decide)⟩

/-- C4 counterexample: the s-key of GW192a_test_Windows.py writes the
frame after the footer has been drawn on it, so the snapshot is not
the recordable (pre-overlay) frame. -/
theorem win_snapshot_contains_overlays :
    (winTickFrames 576 576 false false false false false
        true).snapshotWritten =
      some (putOverlay (cleanFrame 576 576) Overlay.footer) ∧
    putOverlay (cleanFrame 576 576) Overlay.footer ≠ cleanFrame 576 576 := by
  decide

/-- C4 (amended): in GW192a_test.py every frame written to an active
recording and every snapshot is the clean resized palettized frame
(no overlays), while the display frame is a separate copy carrying at
least the footer overlay; in GW192a_test_Windows.py the recording
write still receives the clean frame (it happens before any drawing),
but a snapshot receives the overlaid display frame. -/
theorem recordable_frame_pre_overlay :
    (∀ w h g t m r b hw s,
      (mainTickFrames w h g t m r b hw s).recorded =
        (if r && hw then some (cleanFrame w h) else none) ∧
      (mainTickFrames w h g t m r b hw s).snapshotWritten =
        (if s then some (cleanFrame w h) else none) ∧
      (cleanFrame w h).overlays = [] ∧
      Overlay.footer ∈ (mainTickFrames w h g t m r b hw s).display.overlays) ∧
    (∀ w h t m r b hw s,
      (winTickFrames w h t m r b hw s).recorded =
        (if r && hw then some (cleanFrame w h) else none) ∧
      (s = true → ∃ f, (winTickFrames w h t m r b hw s).snapshotWritten =
        some f ∧ Overlay.footer ∈ f.overlays)) := by
  constructor
  · intro w h g t m r b hw s
    refine ⟨rfl, rfl, rfl, ?_⟩
    simp only [mainTickFrames]
    split_ifs <;> simp [putOverlay, cleanFrame]
  · intro w h t m r b hw s
    refine ⟨rfl, ?_⟩
    intro hs
    subst hs
    simp only [winTickFrames]
    split_ifs <;> exact ⟨_, rfl, by simp [putOverlay, cleanFrame]⟩

/-- C4 witness: a recording, snapshotting tick of each script. -/
theorem recordable_frame_pre_overlay_witness :
    ((winTickFrames 576 576 false false true true true true).recorded =
      (if true && true then some (cleanFrame 576 576) else none)) ∧
    (∃ f, (winTickFrames 576 576 false false true true true
        true).snapshotWritten = some f ∧ Overlay.footer ∈ f.overlays) :=
  ⟨(recordable_frame_pre_overlay.2 576 576 false false true true true
      true).1,
   (recordable_frame_pre_overlay.2 576 576 false false true true true
      true).2 rfl⟩

/-- C6 counterexample: the v-key start branch of
GW192a_test_Windows.py never consults the sink's isOpened, so from
Idle it transitions to Recording (retaining the writer) even when the
sink fails to open — the claim's only-if fails on that script. -/
theorem win_records_despite_closed_sink :
    (winToggleRecord ⟨false, false, none⟩ false).is_recording = true ∧
    (winToggleRecord ⟨false, false, none⟩ false).has_writer = true := by
  decide

/-- C6 (amended): in GW192a_test.py, a toggle-record issued while idle
transitions to Recording exactly when the VideoWriter opens; when the
sink fails to open the state stays un-recording with no writer
retained, the failure is logged, and the failure message is shown;
when it opens, the writer is retained and the start message shown.
GW192a_test_Windows.py starts recording unconditionally. -/
theorem record_start_requires_open_sink :
    (∀ f1 f2 f3 f4 st, AppState.is_recording st = false →
      ((dispatchKey 118 f1 f2 f3 f4 st).is_recording = f2) ∧
      (f2 = false →
        (dispatchKey 118 f1 f2 f3 f4 st).has_writer = false ∧
        (dispatchKey 118 f1 f2 f3 f4 st).last_message =
          some Msg.recStartFailed ∧
        (dispatchKey 118 f1 f2 f3 f4 st).logged =
          AppState.logged st + 1) ∧
      (f2 = true →
        (dispatchKey 118 f1 f2 f3 f4 st).has_writer = true ∧
        (dispatchKey 118 f1 f2 f3 f4 st).last_message =
          some Msg.recStarted)) ∧
    (∀ st so, WinRecState.is_recording st = false →
      (winToggleRecord st so).is_recording = true ∧
      (winToggleRecord st so).has_writer = true) := by
  constructor
  · intro f1 f2 f3 f4 st hrec
    rw [dispatchKey_eq_applyCmd, hrec]
    have hcl : classifyKey 118 false = Cmd.toggleRecord := by decide
    rw [hcl]
    cases f2 <;> simp [applyCmd, hrec]
  · intro st so hrec
    unfold winToggleRecord
    simp [hrec]

/-- C6 witness: an idle tick whose sink fails to open, on each script. -/
theorem record_start_requires_open_sink_witness :
    ((dispatchKey 118 true false true true demoAppState).is_recording =
      false) ∧
    ((winToggleRecord ⟨false, false, some Msg.recStopped⟩
        false).is_recording = true) :=
  ⟨(record_start_requires_open_sink.1 true false true true demoAppState
      rfl).1,
   (record_start_requires_open_sink.2 ⟨false, false, some Msg.recStopped⟩
      false rfl).1⟩

/-- C7 counterexample: with scale_percent 151 (inside
[min_scale, max_scale], reachable by loading a persisted 151) and a
96-wide source, the display width is 144, and the display's rightmost
pixel x = 143 maps back to int(143 / 151 * 100) = 94, not to the
source's rightmost pixel 95 — the bottom-right correspondence of the
claim fails, though the clamped index stays in bounds. -/
theorem pointer_corner_misses_at_scale_151 :
    pointerIndex ((newDim 96 151 : Int) - 1) 151 96 = 94 ∧
    (94 : Int) ≠ (96 : Int) - 1 := by decide

/-- C7 (amended): the pointer-readout mapping of GW192a_test.py always
produces indices inside the source frame (the defensive clamp), and
the display frame's bottom-right pixel maps exactly to the source
frame's bottom-right pixel whenever scale_percent is one of the
step-quantized values 50*k with 150 <= 50*k <= 1000 — but not for
every value in [min_scale, max_scale] (see the counterexample). -/
theorem pointer_readout_mapping :
    (∀ (mouse : Int) (scale src : Nat), 1 ≤ src →
      0 ≤ pointerIndex mouse scale src ∧
      pointerIndex mouse scale src ≤ (src : Int) - 1) ∧
    (∀ w k : Nat, 1 ≤ w → 3 ≤ k → k ≤ 20 →
      pointerIndex ((newDim w (50 * k) : Int) - 1) (50 * k) w =
        (w : Int) - 1) := by
  constructor
  · intro mouse scale src h
    unfold pointerIndex clampIdx
    constructor
    · refine le_min (le_max_right _ _) ?_
      have h1 : (1 : Int) ≤ (src : Int) := by exact_mod_cast h
      omega
    · exact min_le_right _ _
  · intro w k hw hk3 hk20
    have hk0 : 0 < k := by omega
    have hwk3 : 3 ≤ w * k :=
      le_trans hk3 (Nat.le_mul_of_pos_left k (by omega))
    have hq : w * (50 * k) / 100 = w * k / 2 := by
      have h1 : w * (50 * k) = 50 * (w * k) := by ring
      have h2 : (100 : Nat) = 50 * 2 := by norm_num
      rw [h1, h2, Nat.mul_div_mul_left _ _ (by norm_num)]
    have hn1 : 1 ≤ w * k / 2 := by
      have hdm := Nat.div_add_mod (w * k) 2
      have hm2 : w * k % 2 < 2 := Nat.mod_lt _ (by norm_num)
      omega
    have hnew : newDim w (50 * k) = w * k / 2 := by
      rw [newDim, hq]
      exact Nat.max_eq_right hn1
    have hdivq : (w * k / 2 - 1) * 100 / (50 * k) =
        (w * k / 2 - 1) * 2 / k := by
      have h1 : (w * k / 2 - 1) * 100 = 50 * ((w * k / 2 - 1) * 2) := by
        ring
      rw [h1, Nat.mul_div_mul_left _ _ (by norm_num)]
    have hge : w - 1 ≤ (w * k / 2 - 1) * 2 / k := by
      rw [Nat.le_div_iff_mul_le hk0]
      have hdm := Nat.div_add_mod (w * k) 2
      have hm2 : w * k % 2 < 2 := Nat.mod_lt _ (by norm_num)
      have he1 : (w - 1) * k = w * k - k := by rw [Nat.sub_mul, one_mul]
      have he2 : (w * k / 2 - 1) * 2 = (w * k / 2) * 2 - 2 := by
        rw [Nat.sub_mul, one_mul]
      rw [he1, he2]
      omega
    have htd : ∀ a b : Nat, Int.tdiv (a : Int) (b : Int) =
        ((a / b : Nat) : Int) := fun a b => rfl
    unfold pointerIndex origFromMouse clampIdx
    rw [hnew]
    have hc : (((w * k / 2 : Nat) : Int) - 1) * 100 =
        (((w * k / 2 - 1) * 100 : Nat) : Int) := by omega
    rw [hc, htd, hdivq]
    have ho : ((w : Int) - 1) ≤ (((w * k / 2 - 1) * 2 / k : Nat) : Int) := by
      omega
    have h0 : (0 : Int) ≤ (((w * k / 2 - 1) * 2 / k : Nat) : Int) :=
      Int.ofNat_nonneg _
    rw [max_eq_left h0, min_eq_right ho]

/-- C7 witness: an off-frame pointer at scale 151 stays in bounds, and
at the step value 150 the corner maps to the corner. -/
theorem pointer_readout_mapping_witness :
    (0 ≤ pointerIndex 9999 151 96 ∧
      pointerIndex 9999 151 96 ≤ (96 : Int) - 1) ∧
    pointerIndex ((newDim 96 (50 * 3) : Int) - 1) (50 * 3) 96 =
      (96 : Int) - 1 :=
  ⟨pointer_readout_mapping.1 9999 151 96 (by decide),
   pointer_readout_mapping.2 96 3 (by decide) (by decide) (by decide)⟩
